import Mathlib

/-!
Formal model of the Edison Platform task façade
(`edison_platform/client.py`).

The façade wraps an external collaborator client (`edison_client`).  We embed
the request-construction and delegation logic shallowly:

* Python dictionaries holding a task request become association lists
  (`TaskData`), with Python's insertion-order update semantics (`alSet`,
  `dictUpdate`).
* Python values appearing in requests and keyword arguments become `PyVal`.
* Raised exceptions become `Except PyErr`.
* The collaborator (`EdisonClient`) is an arbitrary function parameter; the
  façade owns no other state besides the `verbose` / `show_progress` flags.
* Console output produced through `_log_status` is modelled as a list of the
  printed message strings (timestamps and ANSI colours are terminal I/O and
  carry no information relevant to the logic; they are omitted).

Each façade operation returns a `RunOutcome`: the result (or exception), the
list of requests actually passed to the collaborator's submit-and-wait
operation, and the console log lines.
-/

namespace EdisonPlatform

/-- The four job kinds of the `JobNames` enum used by the client
(`edison_client.JobNames`, mirrored by `job_types.JobTypes`). -/
inductive JobNames where
  | LITERATURE
  | ANALYSIS
  | PRECEDENT
  | MOLECULES
  deriving DecidableEq

/-- Dotted name of a `JobNames` member, as used by Python `str()` on enums. -/
def JobNames.pyName : JobNames → String
  | .LITERATURE => "LITERATURE"
  | .ANALYSIS => "ANALYSIS"
  | .PRECEDENT => "PRECEDENT"
  | .MOLECULES => "MOLECULES"

/-- Python values that can appear in keyword arguments and task-request
fields: strings, ints, bools, `None`, lists, dicts (string keys, insertion
ordered), and `JobNames` enum members. -/
inductive PyVal where
  | str (s : String)
  | int (n : Int)
  | bool (b : Bool)
  | none
  | list (xs : List PyVal)
  | dict (xs : List (String × PyVal))
  | job (j : JobNames)

/-- Python exceptions raised by the modelled code. -/
inductive PyErr where
  | valueError (msg : String)
  | typeError (msg : String)
  deriving DecidableEq

/-- `str(e)` for a raised exception: its message. -/
def errMsg : PyErr → String
  | .valueError m => m
  | .typeError m => m

/-- A task request: a Python dict with string keys, in insertion order. -/
abbrev TaskData := List (String × PyVal)

/-- Dict lookup: `d.get(key)` / `d[key]` (first binding wins; Python dicts
have unique keys). -/
def alGet : TaskData → String → Option PyVal
  | [], _ => Option.none
  | (k, v) :: rest, key => if k = key then some v else alGet rest key

/-- Dict lookup with default: `d.get(key, dflt)`. -/
def alGetD (d : TaskData) (key : String) (dflt : PyVal) : PyVal :=
  (alGet d key).getD dflt

/-- Remove a key: the residue of `d.pop(key, None)`. -/
def alRemove : TaskData → String → TaskData
  | [], _ => []
  | (k, v) :: rest, key =>
    if k = key then alRemove rest key else (k, v) :: alRemove rest key

/-- `d[key] = v`: replace in place if the key exists, else append
(Python dict insertion-order semantics). -/
def alSet : TaskData → String → PyVal → TaskData
  | [], key, v => [(key, v)]
  | (k, w) :: rest, key, v =>
    if k = key then (key, v) :: rest else (k, w) :: alSet rest key v

/-- `d.update(upd)` for a dict argument `upd`. -/
def dictUpdate (d : TaskData) (upd : TaskData) : TaskData :=
  upd.foldl (fun acc kv => alSet acc kv.1 kv.2) d

/-- Python truthiness of a value (`bool(v)`). -/
def pyTruthy : PyVal → Bool
  | .str s => !(s == "")
  | .int n => !(n == 0)
  | .bool b => b
  | .none => false
  | .list xs => !xs.isEmpty
  | .dict xs => !xs.isEmpty
  | .job _ => true

/-- Python `v == s` for a string literal `s` on the right: true exactly for
an equal string (cross-type equality with `str` is `False`). -/
def pyEqStr (v : PyVal) (s : String) : Bool :=
  match v with
  | .str t => t == s
  | _ => false

/-- A single-quote character, used by Python `repr` of strings. -/
def sq : String := String.singleton (Char.ofNat 39)

mutual

/-- Python `repr(v)`, used when containers are interpolated into f-strings.
String escaping inside `repr` is not reproduced (the façade only ever sends
`repr` output to the console log). -/
def pyRepr : PyVal → String
  | .str s => sq ++ s ++ sq
  | .int n => toString n
  | .bool b => if b then "True" else "False"
  | .none => "None"
  | .job j => "<JobNames." ++ j.pyName ++ ": " ++ sq ++ j.pyName ++ sq ++ ">"
  | .list xs => "[" ++ reprItems xs ++ "]"
  | .dict xs => "\x7b" ++ reprPairs xs ++ "\x7d"

/-- Comma-separated `repr`s of list elements. -/
def reprItems : List PyVal → String
  | [] => ""
  | [x] => pyRepr x
  | x :: y :: rest => pyRepr x ++ ", " ++ reprItems (y :: rest)

/-- Comma-separated `repr`s of dict entries. -/
def reprPairs : List (String × PyVal) → String
  | [] => ""
  | [(k, v)] => sq ++ k ++ sq ++ ": " ++ pyRepr v
  | (k, v) :: y :: rest => sq ++ k ++ sq ++ ": " ++ pyRepr v ++ ", " ++ reprPairs (y :: rest)

end

/-- Python `str(v)`: identity on strings, `repr` on containers,
`True`/`False`/`None` for the singletons, dotted name for enum members. -/
def pyStr : PyVal → String
  | .str s => s
  | .int n => toString n
  | .bool b => if b then "True" else "False"
  | .none => "None"
  | .job j => "JobNames." ++ j.pyName
  | .list xs => pyRepr (.list xs)
  | .dict xs => pyRepr (.dict xs)

/-- Insert an entry into a key-sorted list of dict entries. -/
def insByKey (p : String × PyVal) : List (String × PyVal) → List (String × PyVal)
  | [] => [p]
  | q :: rest => if p.1 ≤ q.1 then p :: q :: rest else q :: insByKey p rest

/-- Insertion sort of dict entries by key (Python string `<`, i.e.
lexicographic by code point; dict keys are unique so stability is moot). -/
def sortKeys : List (String × PyVal) → List (String × PyVal)
  | [] => []
  | p :: rest => insByKey p (sortKeys rest)

mutual

/-- Recursively sort every dict in a value by key (ascending code-point
order), modelling the effect of `json.dumps(..., sort_keys=True)`. -/
def sortVal : PyVal → PyVal
  | .list xs => .list (sortItems xs)
  | .dict xs => .dict (sortKeys (sortPairs xs))
  | v => v

/-- `sortVal` mapped over list elements. -/
def sortItems : List PyVal → List PyVal
  | [] => []
  | x :: rest => sortVal x :: sortItems rest

/-- `sortVal` mapped over dict values. -/
def sortPairs : List (String × PyVal) → List (String × PyVal)
  | [] => []
  | (k, v) :: rest => (k, sortVal v) :: sortPairs rest

end

/-- `"sep".join(parts)`. -/
def joinWith (sep : String) : List String → String
  | [] => ""
  | [x] => x
  | x :: y :: rest => x ++ sep ++ joinWith sep (y :: rest)

/-- Lowercase hexadecimal digit. -/
def hexDigit (n : Nat) : Char :=
  if n < 10 then Char.ofNat (48 + n) else Char.ofNat (87 + n)

/-- Four-digit lowercase hexadecimal rendering, as in JSON `\uXXXX`. -/
def hex4 (n : Nat) : String :=
  String.mk [hexDigit (n / 4096 % 16), hexDigit (n / 256 % 16),
             hexDigit (n / 16 % 16), hexDigit (n % 16)]

/-- JSON escape of one character, following Python `json.dumps` with its
default `ensure_ascii=True`: everything outside the printable ASCII range
0x20..0x7e is escaped, astral characters as surrogate pairs. -/
def jsonEscChar (c : Char) : String :=
  if c = Char.ofNat 34 then "\\\""
  else if c = '\\' then "\\\\"
  else if c = '\n' then "\\n"
  else if c = '\r' then "\\r"
  else if c = '\t' then "\\t"
  else if c = Char.ofNat 8 then "\\b"
  else if c = Char.ofNat 12 then "\\f"
  else if c.toNat < 32 || c.toNat > 126 then
    if c.toNat < 65536 then "\\u" ++ hex4 c.toNat
    else
      "\\u" ++ hex4 (55296 + (c.toNat - 65536) / 1024) ++
      "\\u" ++ hex4 (56320 + (c.toNat - 65536) % 1024)
  else String.singleton c

/-- JSON rendering of a string, with Python's default escaping. -/
def jsonStr (s : String) : String :=
  "\"" ++ String.join (s.data.map jsonEscChar) ++ "\""

/-- `" " * (2 * level)`: the indentation prefix that `json.dumps(...,
indent=2)` puts before nested items. -/
def indentStr (level : Nat) : String :=
  String.mk (List.replicate (2 * level) ' ')

mutual

/-- `json.dumps(v, indent=2)` at a given nesting level, applied after
`sortVal` (which accounts for `sort_keys=True`).  Enum members are not JSON
serializable, so `json.dumps` raises `TypeError` on them. -/
def jsonVal (level : Nat) : PyVal → Except PyErr String
  | .str s => .ok (jsonStr s)
  | .int n => .ok (toString n)
  | .bool b => .ok (if b then "true" else "false")
  | .none => .ok "null"
  | .job _ => .error (.typeError "Object of type JobNames is not JSON serializable")
  | .list [] => .ok "[]"
  | .list (x :: rest) =>
    match jsonItems (level + 1) (x :: rest) with
    | .error e => .error e
    | .ok items =>
      .ok ("[\n" ++ joinWith ",\n" (items.map (fun it => indentStr (level + 1) ++ it)) ++
           "\n" ++ indentStr level ++ "]")
  | .dict [] => .ok "\x7b\x7d"
  | .dict (p :: rest) =>
    match jsonEntries (level + 1) (p :: rest) with
    | .error e => .error e
    | .ok items =>
      .ok ("\x7b\n" ++ joinWith ",\n" (items.map (fun it => indentStr (level + 1) ++ it)) ++
           "\n" ++ indentStr level ++ "\x7d")

/-- JSON renderings of the elements of a list. -/
def jsonItems (level : Nat) : List PyVal → Except PyErr (List String)
  | [] => .ok []
  | x :: rest =>
    match jsonVal level x, jsonItems level rest with
    | .ok s, .ok r => .ok (s :: r)
    | .error e, _ => .error e
    | _, .error e => .error e

/-- JSON renderings `"key": value` of the entries of a dict. -/
def jsonEntries (level : Nat) : List (String × PyVal) → Except PyErr (List String)
  | [] => .ok []
  | (k, v) :: rest =>
    match jsonVal level v, jsonEntries level rest with
    | .ok s, .ok r => .ok ((jsonStr k ++ ": " ++ s) :: r)
    | .error e, _ => .error e
    | _, .error e => .error e

end

/-- `json.dumps(v, indent=2, sort_keys=True)`. -/
def pyJson (v : PyVal) : Except PyErr String :=
  jsonVal 0 (sortVal v)

/-- The value formatting shared by `analyze_data` and `chemistry_task`:
dict/list values are serialized as indent-2 key-sorted JSON, all other
values via `str()` (client.py lines 385-388 and 438-441). -/
def formatValue (v : PyVal) : Except PyErr String :=
  match v with
  | .dict _ => pyJson v
  | .list _ => pyJson v
  | _ => .ok (pyStr v)

/-- The `"- key: value"` lines built from the remaining keyword parameters
(client.py lines 384-389 and 437-442). -/
def paramLines : List (String × PyVal) → Except PyErr (List String)
  | [] => .ok []
  | (k, v) :: rest =>
    match formatValue v, paramLines rest with
    | .ok s, .ok r => .ok (("- " ++ k ++ ": " ++ s) :: r)
    | .error e, _ => .error e
    | _, .error e => .error e

/-- The exact character set Python `str.strip()` removes: the code points
for which `str.isspace()` holds — U+0009..U+000D, U+001C..U+001F, the
space, U+0085, U+00A0, U+1680, U+2000..U+200A, U+2028, U+2029, U+202F,
U+205F and U+3000. -/
def isPyWS (c : Char) : Bool :=
  let n := c.toNat
  n == 9 || n == 10 || n == 11 || n == 12 || n == 13 ||
  n == 28 || n == 29 || n == 30 || n == 31 || n == 32 ||
  n == 133 || n == 160 || n == 5760 ||
  n == 8192 || n == 8193 || n == 8194 || n == 8195 || n == 8196 ||
  n == 8197 || n == 8198 || n == 8199 || n == 8200 || n == 8201 ||
  n == 8202 || n == 8232 || n == 8233 || n == 8239 || n == 8287 ||
  n == 12288

/-- `str.strip()` on the character list. -/
def stripL (l : List Char) : List Char :=
  ((l.dropWhile isPyWS).reverse.dropWhile isPyWS).reverse

/-- Python `s.strip()`. -/
def pyStrip (s : String) : String :=
  String.mk (stripL s.data)

/-- Is `small` a prefix of `big` (on character lists)? -/
def takesPre : List Char → List Char → Bool
  | [], _ => true
  | _ :: _, [] => false
  | a :: as, b :: bs => a == b && takesPre as bs

/-- Does `hay` contain `needle` as a contiguous substring? -/
def hasSub (needle : List Char) : List Char → Bool
  | [] => needle.isEmpty
  | c :: rest => takesPre needle (c :: rest) || hasSub needle rest

/-- Outcome of a façade operation that may delegate to the collaborator's
submit-and-wait operation: the returned value or raised exception, the
requests actually passed to `run_tasks_until_done` (in order), and the
console lines printed through `_log_status`. -/
structure RunOutcome (ρ : Type) where
  result : Except PyErr ρ
  calls : List TaskData
  logs : List String

/-- `_log_status(message)` (client.py lines 81-99): prints the message iff
`self.verbose` is set; otherwise prints nothing. -/
def logStatus (verbose : Bool) (message : String) : List String :=
  if verbose then [message] else []

/-- `v[:n]` — Python slicing, defined for strings and lists; other request
values raise `TypeError` when sliced. -/
def pySliceTo (v : PyVal) (n : Nat) : Except PyErr PyVal :=
  match v with
  | .str s => .ok (.str (String.mk (s.data.take n)))
  | .list xs => .ok (.list (xs.take n))
  | _ => .error (.typeError "object is not subscriptable")

/-- `len(v)` for sized values; raises `TypeError` otherwise. -/
def pyLen (v : PyVal) : Except PyErr Nat :=
  match v with
  | .str s => .ok s.length
  | .list xs => .ok xs.length
  | .dict xs => .ok xs.length
  | _ => .error (.typeError "object has no len")

/-- The query-preview f-string of `run_task` (client.py lines 125-126):
when the query field is not the `'N/A'` default, the code evaluates
`query[:100]` and `len(query)` to build the preview line.  This evaluation
happens before `_log_status` runs, hence independently of `verbose`. -/
def queryPreview (query : PyVal) : Except PyErr (List String) :=
  if pyEqStr query "N/A" then .ok []
  else
    match pySliceTo query 100, pyLen query with
    | .ok sliced, .ok n =>
      .ok ["Query: " ++ pyStr sliced ++ (if n > 100 then "..." else "")]
    | .error e, _ => .error e
    | _, .error e => .error e

/-- `run_task` (client.py lines 101-157): logs a status banner, delegates
`task_data` to the collaborator's `run_tasks_until_done`, and returns its
response; any exception is logged and re-raised unchanged.  The
`show_progress and TQDM_AVAILABLE` branch only wraps the same delegation in
a tqdm progress bar (terminal drawing, not modelled); both branches log the
same line and make the same single call. -/
def run_task (collab : TaskData → Except PyErr ρ)
    (verbose show_progress tqdm_avail : Bool) (task_data : TaskData) :
    RunOutcome ρ :=
  let job_name := alGetD task_data "name" (.str "Unknown")
  let query := alGetD task_data "query" (.str "N/A")
  let logs1 := logStatus verbose ("Starting " ++ pyStr job_name ++ " task...")
  match queryPreview query with
  | .error e => ⟨.error e, [], logs1⟩
  | .ok preview =>
    let logs2 := logs1 ++ preview.foldr (fun m acc => logStatus verbose m ++ acc) []
    if show_progress && tqdm_avail then
      let logs3 := logs2 ++ logStatus verbose "Task submitted, waiting for completion..."
      match collab task_data with
      | .ok response =>
        ⟨.ok response, [task_data],
         logs3 ++ logStatus verbose (pyStr job_name ++ " task completed successfully!")⟩
      | .error e =>
        ⟨.error e, [task_data],
         logs3 ++ logStatus verbose ("Error running task: " ++ errMsg e)⟩
    else
      let logs3 := logs2 ++ logStatus verbose "Task submitted, waiting for completion..."
      match collab task_data with
      | .ok response =>
        ⟨.ok response, [task_data],
         logs3 ++ logStatus verbose (pyStr job_name ++ " task completed successfully!")⟩
      | .error e =>
        ⟨.error e, [task_data],
         logs3 ++ logStatus verbose ("Error running task: " ++ errMsg e)⟩

/-- `create_task` (client.py lines 188-213): delegates to the
collaborator's `create_task` and returns the task id; any exception is
logged (via the `logging` module, not the console) and re-raised
unchanged. -/
def create_task (create : TaskData → Except PyErr String) (task_data : TaskData) :
    Except PyErr String :=
  create task_data

/-- `get_task` (client.py lines 242-264): delegates to the collaborator's
`get_task` and returns its result; any exception is logged and re-raised
unchanged. -/
def get_task (get : String → Except PyErr ρ) (task_id : String) :
    Except PyErr ρ :=
  get task_id

/-- `"=" * 60`, the banner separator line of the convenience methods. -/
def sepLine : String := String.mk (List.replicate 60 '=')

/-- `literature_search` (client.py lines 290-317): logs a banner, builds
`\x7b"name": JobNames.LITERATURE, "query": query\x7d` and runs it. -/
def literature_search (collab : TaskData → Except PyErr ρ)
    (verbose show_progress tqdm_avail : Bool) (query : String) : RunOutcome ρ :=
  let logs0 :=
    if verbose then
      logStatus verbose sepLine ++ logStatus verbose "LITERATURE SEARCH" ++
      logStatus verbose sepLine ++ logStatus verbose ("Researching: " ++ query) ++
      logStatus verbose "This may take several minutes as Kosmos reads papers and analyzes data..."
    else []
  let task_data : TaskData := [("name", .job .LITERATURE), ("query", .str query)]
  let r := run_task collab verbose show_progress tqdm_avail task_data
  ⟨r.result, r.calls, logs0 ++ r.logs⟩

/-- `precedent_search` (client.py lines 319-345): logs a banner, builds
`\x7b"name": JobNames.PRECEDENT, "query": query\x7d` and runs it. -/
def precedent_search (collab : TaskData → Except PyErr ρ)
    (verbose show_progress tqdm_avail : Bool) (query : String) : RunOutcome ρ :=
  let logs0 :=
    if verbose then
      logStatus verbose sepLine ++ logStatus verbose "PRECEDENT SEARCH" ++
      logStatus verbose sepLine ++ logStatus verbose ("Searching for: " ++ query)
    else []
  let task_data : TaskData := [("name", .job .PRECEDENT), ("query", .str query)]
  let r := run_task collab verbose show_progress tqdm_avail task_data
  ⟨r.result, r.calls, logs0 ++ r.logs⟩

/-- `params_for_prompt.pop("task_overrides", None) or \x7b\x7d`
(client.py lines 366 and 424): a falsy popped value is replaced by the
empty dict. -/
def normOverrides (v : Option PyVal) : PyVal :=
  match v with
  | some w => if pyTruthy w then w else .dict []
  | Option.none => .dict []

/-- `dict.update` called with a non-mapping iterable of key/value pairs:
each element must be a sequence of length two.  A two-element list with a
string key updates that key; list/dict keys are unhashable (`TypeError`);
a two-character string element updates the first character with the
second; a two-key dict element (iterated over its keys) updates the first
key with the second; wrong-length sequences raise `ValueError` and
non-sequence elements raise `TypeError` — all as CPython does.  A
two-element list whose key is a hashable non-string (int/bool/None/enum)
succeeds in Python and inserts a non-string key; task requests in this
development are string-keyed mappings (`TaskData`), so that entry is not
representable and the model drops it — every string-keyed lookup, and
hence every claim, observes the same request either way. -/
def updPairs (d : TaskData) : List PyVal → Except PyErr TaskData
  | [] => .ok d
  | .list [.str k, v] :: rest => updPairs (alSet d k v) rest
  | .list [.list _, _] :: _ => .error (.typeError "unhashable type: list")
  | .list [.dict _, _] :: _ => .error (.typeError "unhashable type: dict")
  | .list [_, _] :: rest => updPairs d rest
  | .list _ :: _ =>
    .error (.valueError "dictionary update sequence element has wrong length; 2 is required")
  | .str s :: rest =>
    (match s.data with
     | [c0, c1] => updPairs (alSet d (String.singleton c0) (.str (String.singleton c1))) rest
     | _ =>
       .error (.valueError "dictionary update sequence element has wrong length; 2 is required"))
  | .dict [(k0, _), (k1, _)] :: rest => updPairs (alSet d k0 (.str k1)) rest
  | .dict _ :: _ =>
    .error (.valueError "dictionary update sequence element has wrong length; 2 is required")
  | _ :: _ =>
    .error (.typeError "cannot convert dictionary update sequence element to a sequence")

/-- `task_data.update(ov)`: a dict argument merges (`dictUpdate`); any
other iterable is treated as a sequence of key/value pairs (`updPairs`,
with the empty string a no-op); non-iterables raise `TypeError`. -/
def dictUpdateVal (d : TaskData) (ov : PyVal) : Except PyErr TaskData :=
  match ov with
  | .dict kvs => .ok (dictUpdate d kvs)
  | .list xs => updPairs d xs
  | .str s =>
    if s = "" then .ok d
    else .error (.valueError "dictionary update sequence element has wrong length; 2 is required")
  | _ => .error (.typeError "object is not iterable")

/-- `if task_overrides: task_data.update(task_overrides)` (client.py lines
402-403 and 449-450): a falsy override value skips the update entirely. -/
def applyOverrides (task_data : TaskData) (ov : PyVal) : Except PyErr TaskData :=
  if pyTruthy ov then dictUpdateVal task_data ov
  else .ok task_data

/-- f-string rendering of the `dataset` argument (`Optional[str]`). -/
def optStr : Option String → String
  | some s => s
  | Option.none => "None"

/-- The query `analyze_data` synthesizes when no truthy explicit query was
supplied (client.py lines 379-390): `"Dataset: <dataset>"` when the dataset
is truthy, then a `"Parameters:"` line and one `"- key: value"` line per
remaining parameter, joined with newlines and stripped. -/
def analyzeSynthQuery (dataset : Option String)
    (params_for_prompt : List (String × PyVal)) : Except PyErr String :=
  match paramLines params_for_prompt with
  | .error e => .error e
  | .ok pl =>
    let parts :=
      (match dataset with
       | some d => if d == "" then [] else ["Dataset: " ++ d]
       | Option.none => []) ++
      (if params_for_prompt.isEmpty then [] else "Parameters:" :: pl)
    .ok (pyStrip (joinWith "\n" parts))

/-- The request construction of `analyze_data` (client.py lines 364-403),
which reads none of the configuration flags.  This first step resolves the
query value: a truthy popped `query` keyword is used verbatim, otherwise a
query is synthesized from the dataset and remaining parameters. -/
def analyzeQueryE (dataset : Option String)
    (kwargs : List (String × PyVal)) : Except PyErr PyVal :=
  let custom_query := (alGet kwargs "query").getD .none
  if pyTruthy custom_query then .ok custom_query
  else
    match analyzeSynthQuery dataset
        (alRemove (alRemove kwargs "query") "task_overrides") with
    | .error e => .error e
    | .ok q => .ok (.str q)

/-- The full request construction of `analyze_data` (client.py lines
364-403): resolve the query, raise `ValueError` when it is empty, set
`name`/`query`, then merge `task_overrides` into the request. -/
def analyzeRequest (dataset : Option String)
    (kwargs : List (String × PyVal)) : Except PyErr TaskData :=
  match analyzeQueryE dataset kwargs with
  | .error e => .error e
  | .ok qv =>
    if pyTruthy qv then
      applyOverrides [("name", .job .ANALYSIS), ("query", qv)]
        (normOverrides (alGet (alRemove kwargs "query") "task_overrides"))
    else
      .error (.valueError "Analysis requests require at least a dataset or a query string.")

/-- The banner lines `analyze_data` prints before building the request
(client.py lines 368-374). -/
def analyzeLogs (verbose : Bool) (dataset : Option String)
    (params_for_prompt : List (String × PyVal)) : List String :=
  if verbose then
    logStatus verbose sepLine ++ logStatus verbose "DATA ANALYSIS" ++
    logStatus verbose sepLine ++
    logStatus verbose ("Analyzing dataset: " ++ optStr dataset) ++
    (if params_for_prompt.isEmpty then []
     else logStatus verbose ("Parameters: " ++ pyRepr (.dict params_for_prompt)))
  else []

/-- `analyze_data` (client.py lines 347-405): logs a banner, builds the
request via `analyzeRequest` (raising before any request is sent when that
fails), and runs the request. -/
def analyze_data (collab : TaskData → Except PyErr ρ)
    (verbose show_progress tqdm_avail : Bool) (dataset : Option String)
    (kwargs : List (String × PyVal)) : RunOutcome ρ :=
  let logs0 := analyzeLogs verbose dataset (alRemove (alRemove kwargs "query") "task_overrides")
  match analyzeRequest dataset kwargs with
  | .error e => ⟨.error e, [], logs0⟩
  | .ok td =>
    let r := run_task collab verbose show_progress tqdm_avail td
    ⟨r.result, r.calls, logs0 ++ r.logs⟩

/-- The request construction of `chemistry_task` (client.py lines 423-450),
which reads none of the configuration flags.  This first step builds the
prompt: the stripped query, followed by a `Parameters:` block (separated by
a blank line) when extra parameters are present. -/
def chemistryPromptE (query : String)
    (kwargs : List (String × PyVal)) : Except PyErr String :=
  let params_for_prompt := alRemove kwargs "task_overrides"
  if params_for_prompt.isEmpty then .ok (pyStrip query)
  else
    match paramLines params_for_prompt with
    | .error e => .error e
    | .ok pl =>
      .ok (pyStrip query ++ "\n\n" ++ joinWith "\n" ("Parameters:" :: pl))

/-- The full request construction of `chemistry_task` (client.py lines
423-450): build the prompt, set `name`/`query`, then merge
`task_overrides` into the request. -/
def chemistryRequest (query : String)
    (kwargs : List (String × PyVal)) : Except PyErr TaskData :=
  match chemistryPromptE query kwargs with
  | .error e => .error e
  | .ok prompt =>
    applyOverrides [("name", .job .MOLECULES), ("query", .str prompt)]
      (normOverrides (alGet kwargs "task_overrides"))

/-- The banner lines `chemistry_task` prints before building the request
(client.py lines 426-432). -/
def chemistryLogs (verbose : Bool) (query : String)
    (params_for_prompt : List (String × PyVal)) : List String :=
  if verbose then
    logStatus verbose sepLine ++ logStatus verbose "CHEMISTRY TASK" ++
    logStatus verbose sepLine ++ logStatus verbose ("Task: " ++ query) ++
    (if params_for_prompt.isEmpty then []
     else logStatus verbose ("Parameters: " ++ pyRepr (.dict params_for_prompt)))
  else []

/-- `chemistry_task` (client.py lines 407-451): logs a banner, builds the
request via `chemistryRequest`, and runs it. -/
def chemistry_task (collab : TaskData → Except PyErr ρ)
    (verbose show_progress tqdm_avail : Bool) (query : String)
    (kwargs : List (String × PyVal)) : RunOutcome ρ :=
  let logs0 := chemistryLogs verbose query (alRemove kwargs "task_overrides")
  match chemistryRequest query kwargs with
  | .error e => ⟨.error e, [], logs0⟩
  | .ok td =>
    let r := run_task collab verbose show_progress tqdm_avail td
    ⟨r.result, r.calls, logs0 ++ r.logs⟩

/-- The façade state after a successful construction: the accepted api key
and the key the collaborator `EdisonClient` was constructed with, plus the
two configuration flags. -/
structure ClientState where
  api_key : String
  collaborator_key : String
  verbose : Bool
  show_progress : Bool

/-- `api_key or os.getenv("EDISON_API_KEY")`: Python `or` takes the
argument when it is truthy (a non-empty string), else the environment
value (`None` when the variable is unset). -/
def pyOrStr (arg : Option String) (env : Option String) : Option String :=
  match arg with
  | some a => if a == "" then env else some a
  | Option.none => env

/-- `EdisonPlatformClient.__init__` (client.py lines 47-79): resolves the
api key from the argument or the `EDISON_API_KEY` environment variable,
raises `ValueError` if the resolved key is falsy, and only then constructs
the collaborator `EdisonClient` with that key. -/
def clientInit (api_key : Option String) (env_key : Option String)
    (verbose show_progress : Bool) : Except PyErr ClientState :=
  match pyOrStr api_key env_key with
  | some k =>
    if k == "" then
      .error (.valueError "API key is required. Provide it as an argument or set the EDISON_API_KEY environment variable.")
    else .ok ⟨k, k, verbose, show_progress⟩
  | Option.none =>
    .error (.valueError "API key is required. Provide it as an argument or set the EDISON_API_KEY environment variable.")

/-- A collaborator that always succeeds, used to instantiate theorems at
concrete inputs. -/
def okCollab : TaskData → Except PyErr PyVal := fun _ => .ok .none

/-- A collaborator whose submit-and-wait operation always raises. -/
def errCollab : TaskData → Except PyErr PyVal := fun _ => .error (.valueError "boom")

/-- A collaborator whose create operation always raises. -/
def errCreate : TaskData → Except PyErr String := fun _ => .error (.valueError "boom")

/-- A collaborator whose fetch operation always raises. -/
def errGet : String → Except PyErr PyVal := fun _ => .error (.valueError "boom")

/-! ### Helper lemmas about the Python-dict model -/

theorem alGet_alSet (d : TaskData) (k : String) (v : PyVal) (key : String) :
    alGet (alSet d k v) key = if key = k then some v else alGet d key := by
  induction d with
  | nil =>
    by_cases h : key = k
    · subst h; simp [alSet, alGet]
    · have h' : ¬ (k = key) := fun hh => h hh.symm
      simp [alSet, alGet, h, h']
  | cons p rest ih =>
    obtain ⟨k1, v1⟩ := p
    by_cases h1 : k1 = k
    · subst h1
      by_cases h2 : key = k1
      · subst h2; simp [alSet, alGet]
      · have h2' : ¬ (k1 = key) := fun hh => h2 hh.symm
        simp [alSet, alGet, h2, h2']
    · by_cases h2 : k1 = key
      · subst h2
        simp [alSet, alGet, h1, fun hh : k1 = k => h1 hh]
      · simp [alSet, alGet, h1, h2, ih]

theorem alGet_dictUpdate_absent (d u : TaskData) (key : String)
    (h : alGet u key = Option.none) : alGet (dictUpdate d u) key = alGet d key := by
  induction u generalizing d with
  | nil => rfl
  | cons p u' ih =>
    obtain ⟨k, v⟩ := p
    have hk : ¬ (k = key) := by
      intro hh
      simp [alGet, hh] at h
    have h' : alGet u' key = Option.none := by
      simpa [alGet, hk] using h
    have hcons : dictUpdate d ((k, v) :: u') = dictUpdate (alSet d k v) u' := rfl
    rw [hcons, ih _ h', alGet_alSet, if_neg (fun hh => hk hh.symm)]

theorem alRemove_absent (d : TaskData) (key : String) (h : alGet d key = Option.none) :
    alRemove d key = d := by
  induction d with
  | nil => rfl
  | cons p rest ih =>
    obtain ⟨k, v⟩ := p
    have hk : ¬ (k = key) := by
      intro hh
      simp [alGet, hh] at h
    have h' : alGet rest key = Option.none := by
      simpa [alGet, hk] using h
    simp [alRemove, hk, ih h']

/-! ### Helper lemmas about stripping and substrings -/

theorem stripL_eq_self {l : List Char}
    (h1 : ∀ c, l.head? = some c → isPyWS c = false)
    (h2 : ∀ c, l.getLast? = some c → isPyWS c = false) :
    stripL l = l := by
  have d1 : l.dropWhile isPyWS = l := by
    cases l with
    | nil => rfl
    | cons c t =>
      rw [List.dropWhile_cons, h1 c rfl]
      simp
  have d2 : l.reverse.dropWhile isPyWS = l.reverse := by
    cases hr : l.reverse with
    | nil => rfl
    | cons c t =>
      have hl : l.getLast? = some c := by
        rw [← List.head?_reverse, hr]
        rfl
      rw [List.dropWhile_cons, h2 c hl]
      simp
  unfold stripL
  rw [d1, d2, List.reverse_reverse]

theorem pyStrip_eq_self {s : String}
    (h1 : ∀ c, s.data.head? = some c → isPyWS c = false)
    (h2 : ∀ c, s.data.getLast? = some c → isPyWS c = false) :
    pyStrip s = s := by
  unfold pyStrip
  rw [stripL_eq_self h1 h2]

theorem takesPre_append (n b : List Char) : takesPre n (n ++ b) = true := by
  induction n with
  | nil => rfl
  | cons c t ih => simp [takesPre, ih]

theorem hasSub_decomp (n a b : List Char) : hasSub n (a ++ n ++ b) = true := by
  induction a with
  | nil =>
    simp only [List.nil_append]
    cases n with
    | nil =>
      cases b with
      | nil => rfl
      | cons c r => simp [hasSub, takesPre]
    | cons c t =>
      have h : takesPre (c :: t) ((c :: t) ++ b) = true := takesPre_append _ _
      simp only [List.cons_append, hasSub, List.append_eq] at h ⊢
      rw [h]
      simp
  | cons d a' ih =>
    simp only [List.cons_append, hasSub, List.append_eq] at ih ⊢
    rw [ih]
    simp

theorem hasSub_of_substr {hay needle : String}
    (h : ∃ a b : String, hay = a ++ needle ++ b) :
    hasSub needle.data hay.data = true := by
  obtain ⟨a, b, hab⟩ := h
  rw [hab, String.data_append, String.data_append]
  exact hasSub_decomp _ _ _

/-! ### Spec lemmas for `run_task` and the convenience wrappers -/

theorem queryPreview_str (Q : String) :
    queryPreview (.str Q) =
      .ok (if (Q == "N/A") then []
           else ["Query: " ++ String.mk (Q.data.take 100) ++
                 (if Q.length > 100 then "..." else "")]) := by
  by_cases h : (Q == "N/A") = true <;>
    simp [queryPreview, pyEqStr, pySliceTo, pyLen, pyStr, h]

theorem run_task_result (collab : TaskData → Except PyErr ρ) (v s t : Bool)
    (td : TaskData) :
    (run_task collab v s t td).result =
      (match queryPreview (alGetD td "query" (.str "N/A")) with
       | .error e => .error e
       | .ok _ => collab td) := by
  cases hq : queryPreview (alGetD td "query" (.str "N/A")) with
  | error e => simp [run_task, hq]
  | ok preview =>
    cases hst : (s && t) <;> cases hc : collab td <;>
      simp [run_task, hq, hst, hc]

theorem run_task_calls (collab : TaskData → Except PyErr ρ) (v s t : Bool)
    (td : TaskData) :
    (run_task collab v s t td).calls =
      (match queryPreview (alGetD td "query" (.str "N/A")) with
       | .error _ => ([] : List TaskData)
       | .ok _ => [td]) := by
  cases hq : queryPreview (alGetD td "query" (.str "N/A")) with
  | error e => simp [run_task, hq]
  | ok preview =>
    cases hst : (s && t) <;> cases hc : collab td <;>
      simp [run_task, hq, hst, hc]

theorem run_task_str_query (collab : TaskData → Except PyErr ρ) (v s t : Bool)
    (td : TaskData) (Q : String) (hq : alGetD td "query" (.str "N/A") = .str Q) :
    (run_task collab v s t td).result = collab td ∧
    (run_task collab v s t td).calls = [td] := by
  rw [run_task_result, run_task_calls, hq, queryPreview_str]
  exact ⟨rfl, rfl⟩

theorem literature_search_spec (collab : TaskData → Except PyErr ρ) (v s t : Bool)
    (q : String) :
    (literature_search collab v s t q).result =
      collab [("name", .job .LITERATURE), ("query", .str q)] ∧
    (literature_search collab v s t q).calls =
      [[("name", .job .LITERATURE), ("query", .str q)]] := by
  have hq : alGetD [("name", PyVal.job .LITERATURE), ("query", PyVal.str q)]
      "query" (.str "N/A") = .str q := by
    simp [alGetD, alGet]
  exact run_task_str_query collab v s t _ q hq

theorem precedent_search_spec (collab : TaskData → Except PyErr ρ) (v s t : Bool)
    (q : String) :
    (precedent_search collab v s t q).result =
      collab [("name", .job .PRECEDENT), ("query", .str q)] ∧
    (precedent_search collab v s t q).calls =
      [[("name", .job .PRECEDENT), ("query", .str q)]] := by
  have hq : alGetD [("name", PyVal.job .PRECEDENT), ("query", PyVal.str q)]
      "query" (.str "N/A") = .str q := by
    simp [alGetD, alGet]
  exact run_task_str_query collab v s t _ q hq

theorem analyze_data_result (collab : TaskData → Except PyErr ρ) (v s t : Bool)
    (ds : Option String) (kwargs : List (String × PyVal)) :
    (analyze_data collab v s t ds kwargs).result =
      (match analyzeRequest ds kwargs with
       | .error e => .error e
       | .ok td =>
         match queryPreview (alGetD td "query" (.str "N/A")) with
         | .error e => .error e
         | .ok _ => collab td) := by
  cases h : analyzeRequest ds kwargs with
  | error e => simp [analyze_data, h]
  | ok td => simp [analyze_data, h, run_task_result]

theorem analyze_data_calls (collab : TaskData → Except PyErr ρ) (v s t : Bool)
    (ds : Option String) (kwargs : List (String × PyVal)) :
    (analyze_data collab v s t ds kwargs).calls =
      (match analyzeRequest ds kwargs with
       | .error _ => ([] : List TaskData)
       | .ok td =>
         match queryPreview (alGetD td "query" (.str "N/A")) with
         | .error _ => ([] : List TaskData)
         | .ok _ => [td]) := by
  cases h : analyzeRequest ds kwargs with
  | error e => simp [analyze_data, h]
  | ok td => simp [analyze_data, h, run_task_calls]

theorem chemistry_task_result (collab : TaskData → Except PyErr ρ) (v s t : Bool)
    (q : String) (kwargs : List (String × PyVal)) :
    (chemistry_task collab v s t q kwargs).result =
      (match chemistryRequest q kwargs with
       | .error e => .error e
       | .ok td =>
         match queryPreview (alGetD td "query" (.str "N/A")) with
         | .error e => .error e
         | .ok _ => collab td) := by
  cases h : chemistryRequest q kwargs with
  | error e => simp [chemistry_task, h]
  | ok td => simp [chemistry_task, h, run_task_result]

theorem chemistry_task_calls (collab : TaskData → Except PyErr ρ) (v s t : Bool)
    (q : String) (kwargs : List (String × PyVal)) :
    (chemistry_task collab v s t q kwargs).calls =
      (match chemistryRequest q kwargs with
       | .error _ => ([] : List TaskData)
       | .ok td =>
         match queryPreview (alGetD td "query" (.str "N/A")) with
         | .error _ => ([] : List TaskData)
         | .ok _ => [td]) := by
  cases h : chemistryRequest q kwargs with
  | error e => simp [chemistry_task, h]
  | ok td => simp [chemistry_task, h, run_task_calls]

theorem applyOverrides_dict (base : TaskData) (d : List (String × PyVal)) :
    applyOverrides base (.dict d) = .ok (dictUpdate base d) := by
  cases d with
  | nil => rfl
  | cons p rest => rfl

/-! ### Claim theorems -/

/-- Claim C8: constructing the client with no `api_key` argument and with
the `EDISON_API_KEY` environment variable unset always raises `ValueError`
at construction; no collaborator client is created (the success state,
which records the collaborator construction, is never built). -/
theorem claim_C8 (verbose show_progress : Bool) :
    clientInit Option.none Option.none verbose show_progress =
      .error (.valueError "API key is required. Provide it as an argument or set the EDISON_API_KEY environment variable.") := rfl

/-- Claim C5: whenever the resolved query of `analyze_data` is empty
(falsy) — in particular when neither a dataset, nor extra parameters, nor
an explicit query were supplied — the method raises `ValueError` and the
collaborator's submit-and-wait operation is never invoked (the call list
is empty, for every collaborator and every flag setting). -/
theorem claim_C5 {ρ : Type} (collab : TaskData → Except PyErr ρ) (v s t : Bool)
    (ds : Option String) (kwargs : List (String × PyVal)) (qv : PyVal)
    (hqe : analyzeQueryE ds kwargs = .ok qv) (hfal : pyTruthy qv = false) :
    ((analyze_data collab v s t ds kwargs).result =
      .error (.valueError "Analysis requests require at least a dataset or a query string.") ∧
     (analyze_data collab v s t ds kwargs).calls = []) ∧
    ((analyze_data collab v s t Option.none []).result =
      .error (.valueError "Analysis requests require at least a dataset or a query string.") ∧
     (analyze_data collab v s t Option.none []).calls = []) := by
  have hreq : analyzeRequest ds kwargs =
      .error (.valueError "Analysis requests require at least a dataset or a query string.") := by
    unfold analyzeRequest
    rw [hqe]
    dsimp only
    rw [if_neg (by simp [hfal])]
  refine ⟨⟨?_, ?_⟩, rfl, rfl⟩
  · rw [analyze_data_result, hreq]
  · rw [analyze_data_calls, hreq]

/-- Witness for claim C5 at the concrete no-argument call. -/
theorem claim_C5_witness :
    analyzeQueryE Option.none [] = .ok (PyVal.str "") ∧
    pyTruthy (PyVal.str "") = false ∧
    (((analyze_data okCollab true true true Option.none []).result =
      .error (.valueError "Analysis requests require at least a dataset or a query string.") ∧
     (analyze_data okCollab true true true Option.none []).calls = []) ∧
    ((analyze_data okCollab true true true Option.none []).result =
      .error (.valueError "Analysis requests require at least a dataset or a query string.") ∧
     (analyze_data okCollab true true true Option.none []).calls = [])) :=
  ⟨rfl, rfl, claim_C5 okCollab true true true Option.none [] (PyVal.str "") rfl rfl⟩

/-- Claim C6: `literature_search q` passes exactly the request
`name=LITERATURE, query=q` to the collaborator's submit-and-wait operation
and returns the collaborator's result unmodified; `precedent_search`
behaves the same with `name=PRECEDENT`. -/
theorem claim_C6 {ρ : Type} (collab : TaskData → Except PyErr ρ) (v s t : Bool)
    (q : String) :
    (literature_search collab v s t q).result =
      collab [("name", .job .LITERATURE), ("query", .str q)] ∧
    (literature_search collab v s t q).calls =
      [[("name", .job .LITERATURE), ("query", .str q)]] ∧
    (precedent_search collab v s t q).result =
      collab [("name", .job .PRECEDENT), ("query", .str q)] ∧
    (precedent_search collab v s t q).calls =
      [[("name", .job .PRECEDENT), ("query", .str q)]] := by
  obtain ⟨h1, h2⟩ := literature_search_spec collab v s t q
  obtain ⟨h3, h4⟩ := precedent_search_spec collab v s t q
  exact ⟨h1, h2, h3, h4⟩

/-- Claim C7: whatever exception the collaborator raises during the
delegated call of `run_task`, `create_task` or `get_task` is re-raised
unchanged — no retry, no substitution, no recovery.  (For `run_task` the
collaborator is only reached when the preview f-string evaluation of the
request's query succeeds, which holds for every request whose query field
is a string or absent.) -/
theorem claim_C7 {ρ : Type} (collab : TaskData → Except PyErr ρ)
    (create : TaskData → Except PyErr String) (get : String → Except PyErr ρ)
    (v s t : Bool) (td : TaskData) (task_id : String) (e e1 e2 : PyErr)
    (hprev : ∃ ls, queryPreview (alGetD td "query" (.str "N/A")) = .ok ls)
    (hrun : collab td = .error e) (hcr : create td = .error e1)
    (hget : get task_id = .error e2) :
    (run_task collab v s t td).result = .error e ∧
    create_task create td = .error e1 ∧
    get_task get task_id = .error e2 := by
  obtain ⟨ls, hls⟩ := hprev
  refine ⟨?_, hcr, hget⟩
  rw [run_task_result, hls, hrun]

/-- Witness for claim C7 at a concrete request and always-raising
collaborator operations. -/
theorem claim_C7_witness :
    (run_task errCollab true true true
      [("name", PyVal.job .LITERATURE), ("query", PyVal.str "z")]).result =
        .error (.valueError "boom") ∧
    create_task errCreate [("name", PyVal.job .LITERATURE)] = .error (.valueError "boom") ∧
    get_task errGet "task-1" = .error (.valueError "boom") :=
  claim_C7 errCollab errCreate errGet true true true
    [("name", PyVal.job .LITERATURE), ("query", PyVal.str "z")] "task-1"
    (.valueError "boom") (.valueError "boom") (.valueError "boom")
    ⟨["Query: z"], rfl⟩ rfl rfl rfl

/-- Claim C9: two runs that differ only in the `verbose` and
`show_progress` flags pass identical requests to the collaborator and
return identical results, for `run_task` and for all four convenience
methods; the flags only change the console log. -/
theorem claim_C9 {ρ : Type} (collab : TaskData → Except PyErr ρ) (t : Bool)
    (td : TaskData) (q1 q2 q3 : String) (ds : Option String)
    (kw1 kw2 : List (String × PyVal)) (v1 s1 v2 s2 : Bool) :
    ((run_task collab v1 s1 t td).result = (run_task collab v2 s2 t td).result ∧
     (run_task collab v1 s1 t td).calls = (run_task collab v2 s2 t td).calls) ∧
    ((literature_search collab v1 s1 t q1).result = (literature_search collab v2 s2 t q1).result ∧
     (literature_search collab v1 s1 t q1).calls = (literature_search collab v2 s2 t q1).calls) ∧
    ((precedent_search collab v1 s1 t q2).result = (precedent_search collab v2 s2 t q2).result ∧
     (precedent_search collab v1 s1 t q2).calls = (precedent_search collab v2 s2 t q2).calls) ∧
    ((analyze_data collab v1 s1 t ds kw1).result = (analyze_data collab v2 s2 t ds kw1).result ∧
     (analyze_data collab v1 s1 t ds kw1).calls = (analyze_data collab v2 s2 t ds kw1).calls) ∧
    ((chemistry_task collab v1 s1 t q3 kw2).result = (chemistry_task collab v2 s2 t q3 kw2).result ∧
     (chemistry_task collab v1 s1 t q3 kw2).calls = (chemistry_task collab v2 s2 t q3 kw2).calls) := by
  refine ⟨⟨?_, ?_⟩, ⟨?_, ?_⟩, ⟨?_, ?_⟩, ⟨?_, ?_⟩, ⟨?_, ?_⟩⟩
  · rw [run_task_result, run_task_result]
  · rw [run_task_calls, run_task_calls]
  · rw [(literature_search_spec collab v1 s1 t q1).1,
        (literature_search_spec collab v2 s2 t q1).1]
  · rw [(literature_search_spec collab v1 s1 t q1).2,
        (literature_search_spec collab v2 s2 t q1).2]
  · rw [(precedent_search_spec collab v1 s1 t q2).1,
        (precedent_search_spec collab v2 s2 t q2).1]
  · rw [(precedent_search_spec collab v1 s1 t q2).2,
        (precedent_search_spec collab v2 s2 t q2).2]
  · rw [analyze_data_result, analyze_data_result]
  · rw [analyze_data_calls, analyze_data_calls]
  · rw [chemistry_task_result, chemistry_task_result]
  · rw [chemistry_task_calls, chemistry_task_calls]

theorem analyzeQueryE_custom (ds : Option String) (q : String)
    (rest : List (String × PyVal)) (hq : q ≠ "") :
    analyzeQueryE ds (("query", PyVal.str q) :: rest) = .ok (.str q) := by
  have hbe : (q == "") = false := by simp [hq]
  simp [analyzeQueryE, alGet, pyTruthy, hbe]

/-- Claim C10: an explicit but empty `query=""` keyword is not used
verbatim: the call behaves exactly as if no query had been supplied (the
whole outcome, logs included, is the same), so `analyze_data(query="",
dataset="D")` succeeds with the synthesized query `"Dataset: D"`, and the
`ValueError` is raised only when dataset and remaining parameters are also
absent. -/
theorem claim_C10 {ρ : Type} (collab : TaskData → Except PyErr ρ) (v s t : Bool)
    (ds : Option String) (rest : List (String × PyVal))
    (hq : alGet rest "query" = Option.none) :
    analyze_data collab v s t ds (("query", PyVal.str "") :: rest) =
      analyze_data collab v s t ds rest ∧
    (∃ td, (analyze_data collab v s t (some "D") [("query", PyVal.str "")]).calls = [td] ∧
      alGet td "query" = some (.str "Dataset: D") ∧
      (analyze_data collab v s t (some "D") [("query", PyVal.str "")]).result = collab td) ∧
    ((analyze_data collab v s t Option.none [("query", PyVal.str "")]).result =
      .error (.valueError "Analysis requests require at least a dataset or a query string.") ∧
     (analyze_data collab v s t Option.none [("query", PyVal.str "")]).calls = []) := by
  have hrest : alRemove rest "query" = rest := alRemove_absent rest "query" hq
  have hrem : alRemove (("query", PyVal.str "") :: rest) "query" = rest := by
    simp [alRemove, hrest]
  refine ⟨?_, ?_, rfl, rfl⟩
  · have hqe : analyzeQueryE ds (("query", PyVal.str "") :: rest) =
        analyzeQueryE ds rest := by
      simp [analyzeQueryE, alGet, hq, hrem, hrest, pyTruthy]
    have hreq : analyzeRequest ds (("query", PyVal.str "") :: rest) =
        analyzeRequest ds rest := by
      simp [analyzeRequest, hqe, hrem, hrest]
    cases har : analyzeRequest ds rest with
    | error e => simp [analyze_data, hreq, har, hrem, hrest]
    | ok td => simp [analyze_data, hreq, har, hrem, hrest]
  · refine ⟨[("name", .job .ANALYSIS), ("query", .str "Dataset: D")], ?_, rfl, ?_⟩
    · rw [analyze_data_calls]
      rfl
    · rw [analyze_data_result]
      rfl

/-- Witness for claim C10 at concrete inputs (empty remaining parameters,
always-succeeding collaborator). -/
theorem claim_C10_witness :
    alGet ([] : TaskData) "query" = Option.none ∧
    (analyze_data okCollab true true true (some "D") [("query", PyVal.str "")] =
      analyze_data okCollab true true true (some "D") [] ∧
    (∃ td, (analyze_data okCollab true true true (some "D") [("query", PyVal.str "")]).calls = [td] ∧
      alGet td "query" = some (.str "Dataset: D") ∧
      (analyze_data okCollab true true true (some "D") [("query", PyVal.str "")]).result = okCollab td) ∧
    ((analyze_data okCollab true true true Option.none [("query", PyVal.str "")]).result =
      .error (.valueError "Analysis requests require at least a dataset or a query string.") ∧
     (analyze_data okCollab true true true Option.none [("query", PyVal.str "")]).calls = [])) :=
  ⟨rfl, claim_C10 okCollab true true true (some "D") [] rfl⟩

theorem normOverrides_noName {o : Option PyVal}
    (hno : ∀ w, o = some w → pyTruthy w = true →
      ∃ d, w = .dict d ∧ alGet d "name" = Option.none) :
    ∃ d, normOverrides o = .dict d ∧ alGet d "name" = Option.none := by
  cases o with
  | none => exact ⟨[], rfl, rfl⟩
  | some w =>
    by_cases ht : pyTruthy w = true
    · obtain ⟨d, hwd, hdn⟩ := hno w rfl ht
      refine ⟨d, ?_, hdn⟩
      simp only [normOverrides]
      rw [if_pos ht, hwd]
    · refine ⟨[], ?_, rfl⟩
      simp only [normOverrides]
      rw [if_neg ht]

theorem analyzeRequest_name {ds : Option String} {kwargs : List (String × PyVal)}
    {td : TaskData} (h : analyzeRequest ds kwargs = .ok td)
    (hno : ∀ w, alGet (alRemove kwargs "query") "task_overrides" = some w →
      pyTruthy w = true → ∃ d, w = .dict d ∧ alGet d "name" = Option.none) :
    alGet td "name" = some (.job .ANALYSIS) := by
  unfold analyzeRequest at h
  cases hqe : analyzeQueryE ds kwargs with
  | error e =>
    rw [hqe] at h
    exact absurd h (by simp)
  | ok qv =>
    rw [hqe] at h
    dsimp only at h
    by_cases ht : pyTruthy qv = true
    · rw [if_pos ht] at h
      obtain ⟨d, hod, hdn⟩ := normOverrides_noName hno
      rw [hod, applyOverrides_dict] at h
      have htd : td = dictUpdate [("name", .job .ANALYSIS), ("query", qv)] d :=
        (Except.ok.inj h).symm
      rw [htd, alGet_dictUpdate_absent _ _ _ hdn]
      simp [alGet]
    · rw [if_neg ht] at h
      exact absurd h (by simp)

theorem chemistryRequest_name {q : String} {kwargs : List (String × PyVal)}
    {td : TaskData} (h : chemistryRequest q kwargs = .ok td)
    (hno : ∀ w, alGet kwargs "task_overrides" = some w →
      pyTruthy w = true → ∃ d, w = .dict d ∧ alGet d "name" = Option.none) :
    alGet td "name" = some (.job .MOLECULES) := by
  unfold chemistryRequest at h
  cases hpe : chemistryPromptE q kwargs with
  | error e =>
    rw [hpe] at h
    exact absurd h (by simp)
  | ok prompt =>
    rw [hpe] at h
    dsimp only at h
    obtain ⟨d, hod, hdn⟩ := normOverrides_noName hno
    rw [hod, applyOverrides_dict] at h
    have htd : td = dictUpdate [("name", .job .MOLECULES), ("query", .str prompt)] d :=
      (Except.ok.inj h).symm
    rw [htd, alGet_dictUpdate_absent _ _ _ hdn]
    simp [alGet]

/-- Counterexample to claim C1 as stated: a caller-supplied
`task_overrides` mapping is merged after `name` is set, so
`analyze_data(dataset="D", task_overrides=\x7b"name": "CUSTOM"\x7d)` sends
a final request whose `name` field is the string `"CUSTOM"`, which is none
of the four known job kinds. -/
theorem claim_C1_counterexample :
    ∃ td, (analyze_data okCollab true true true (some "D")
        [("task_overrides", PyVal.dict [("name", PyVal.str "CUSTOM")])]).calls = [td] ∧
      alGet td "name" = some (.str "CUSTOM") ∧
      ∀ j : JobNames, ¬ alGet td "name" = some (.job j) := by
  refine ⟨[("name", PyVal.str "CUSTOM"), ("query", PyVal.str "Dataset: D")], ?_, rfl, ?_⟩
  · rw [analyze_data_calls]
    rfl
  · intro j h
    simp [alGet] at h

/-- Claim C1, amended: every request a convenience method passes to the
collaborator has a `name` field that is one of the four known job kinds,
provided any caller-supplied `task_overrides`, when truthy, is a dict
mapping that does not contain a `name` key (a clobbering override — a dict
or a pair-iterable carrying a `name` entry — can replace the field with an
arbitrary value, as the counterexample shows).  `literature_search` and
`precedent_search` accept no overrides at all. -/
theorem claim_C1 {ρ : Type} (collab : TaskData → Except PyErr ρ) (v s t : Bool)
    (q1 q2 q3 : String) (ds : Option String) (kw1 kw2 : List (String × PyVal))
    (h1 : ∀ w, alGet (alRemove kw1 "query") "task_overrides" = some w →
      pyTruthy w = true → ∃ d, w = .dict d ∧ alGet d "name" = Option.none)
    (h2 : ∀ w, alGet kw2 "task_overrides" = some w →
      pyTruthy w = true → ∃ d, w = .dict d ∧ alGet d "name" = Option.none) :
    (∀ td ∈ (literature_search collab v s t q1).calls,
      ∃ j, alGet td "name" = some (.job j)) ∧
    (∀ td ∈ (precedent_search collab v s t q2).calls,
      ∃ j, alGet td "name" = some (.job j)) ∧
    (∀ td ∈ (analyze_data collab v s t ds kw1).calls,
      ∃ j, alGet td "name" = some (.job j)) ∧
    (∀ td ∈ (chemistry_task collab v s t q3 kw2).calls,
      ∃ j, alGet td "name" = some (.job j)) := by
  refine ⟨?_, ?_, ?_, ?_⟩
  · intro td htd
    rw [(literature_search_spec collab v s t q1).2] at htd
    simp at htd
    subst htd
    exact ⟨.LITERATURE, by simp [alGet]⟩
  · intro td htd
    rw [(precedent_search_spec collab v s t q2).2] at htd
    simp at htd
    subst htd
    exact ⟨.PRECEDENT, by simp [alGet]⟩
  · intro td htd
    rw [analyze_data_calls] at htd
    cases har : analyzeRequest ds kw1 with
    | error e =>
      rw [har] at htd
      simp at htd
    | ok td0 =>
      rw [har] at htd
      dsimp only at htd
      cases hqp : queryPreview (alGetD td0 "query" (.str "N/A")) with
      | error e =>
        rw [hqp] at htd
        simp at htd
      | ok ls =>
        rw [hqp] at htd
        simp at htd
        subst htd
        exact ⟨.ANALYSIS, analyzeRequest_name har h1⟩
  · intro td htd
    rw [chemistry_task_calls] at htd
    cases har : chemistryRequest q3 kw2 with
    | error e =>
      rw [har] at htd
      simp at htd
    | ok td0 =>
      rw [har] at htd
      dsimp only at htd
      cases hqp : queryPreview (alGetD td0 "query" (.str "N/A")) with
      | error e =>
        rw [hqp] at htd
        simp at htd
      | ok ls =>
        rw [hqp] at htd
        simp at htd
        subst htd
        exact ⟨.MOLECULES, chemistryRequest_name har h2⟩

/-- Witness for the amended claim C1 at concrete inputs (overrides maps
without a `name` key). -/
theorem claim_C1_witness :
    (∀ w, alGet (alRemove [("x", PyVal.str "1")] "query") "task_overrides" = some w →
      pyTruthy w = true → ∃ d, w = PyVal.dict d ∧ alGet d "name" = Option.none) ∧
    (∀ w, alGet ([] : TaskData) "task_overrides" = some w →
      pyTruthy w = true → ∃ d, w = PyVal.dict d ∧ alGet d "name" = Option.none) ∧
    ((∀ td ∈ (literature_search okCollab true true true "q1").calls,
       ∃ j, alGet td "name" = some (.job j)) ∧
     (∀ td ∈ (precedent_search okCollab true true true "q2").calls,
       ∃ j, alGet td "name" = some (.job j)) ∧
     (∀ td ∈ (analyze_data okCollab true true true (some "D")
        [("x", PyVal.str "1")]).calls, ∃ j, alGet td "name" = some (.job j)) ∧
     (∀ td ∈ (chemistry_task okCollab true true true "q3" []).calls,
       ∃ j, alGet td "name" = some (.job j))) :=
  ⟨by
    intro w hw
    simp [alGet, alRemove] at hw,
   by
    intro w hw
    simp [alGet] at hw,
   claim_C1 okCollab true true true "q1" "q2" "q3" (some "D") [("x", PyVal.str "1")] []
     (by
       intro w hw
       simp [alGet, alRemove] at hw)
     (by
       intro w hw
       simp [alGet] at hw)⟩

theorem head?_append_left {l1 l2 : List Char} {c : Char} (h : l1.head? = some c) :
    (l1 ++ l2).head? = some c := by
  cases l1 with
  | nil => exact absurd h (by simp)
  | cons a t =>
    have : a = c := by
      simpa using h
    simp [this]

theorem getLast?_append_right {l1 l2 : List Char} {c : Char}
    (h : l2.getLast? = some c) : (l1 ++ l2).getLast? = some c := by
  rw [← List.head?_reverse] at h ⊢
  rw [List.reverse_append]
  exact head?_append_left h

theorem data_ne_nil_left {a : String} (b : String) (h : a.data ≠ []) :
    (a ++ b).data ≠ [] := by
  rw [String.data_append]
  intro hh
  exact h (List.append_eq_nil.mp hh).1

theorem str_ne_empty {a : String} (h : a.data ≠ []) : a ≠ "" := by
  intro hh
  rw [hh] at h
  exact h rfl

/-- The synthesized query is left untouched by the final `strip()` when its
last segment ends in a non-whitespace character (the first character is
always the `D` of `"Dataset: "`). -/
theorem pyStrip_ds (D mid sv : String)
    (hsv : ∃ c l, sv.data = l ++ [c] ∧ isPyWS c = false) :
    pyStrip ("Dataset: " ++ D ++ mid ++ sv) = "Dataset: " ++ D ++ mid ++ sv := by
  obtain ⟨c0, l0, hl, hws⟩ := hsv
  have hdata : ("Dataset: " ++ D ++ mid ++ sv).data =
      "Dataset: ".data ++ (D.data ++ mid.data ++ sv.data) := by
    simp [String.data_append, List.append_assoc]
  apply pyStrip_eq_self
  · intro c hc
    rw [hdata] at hc
    have hD : ("Dataset: ".data ++ (D.data ++ mid.data ++ sv.data)).head? = some 'D' :=
      head?_append_left rfl
    rw [hD] at hc
    injection hc with hc
    rw [← hc]
    rfl
  · intro c hc
    have hdata2 : ("Dataset: " ++ D ++ mid ++ sv).data =
        (("Dataset: " ++ D ++ mid).data ++ l0) ++ [c0] := by
      rw [String.data_append, hl, ← List.append_assoc]
    rw [hdata2, List.getLast?_concat] at hc
    injection hc with hc
    rw [← hc]
    exact hws

theorem analyzeSynthQuery_single (D k : String) (val : PyVal) (sv : String)
    (hD : (D == "") = false) (hser : formatValue val = .ok sv)
    (hsv : ∃ c l, sv.data = l ++ [c] ∧ isPyWS c = false) :
    analyzeSynthQuery (some D) [(k, val)] =
      .ok ("Dataset: " ++ D ++ "\nParameters:\n" ++ ("- " ++ k ++ ": " ++ sv)) := by
  obtain ⟨c0, l0, hl, hws⟩ := hsv
  have hpl : paramLines [(k, val)] = .ok ["- " ++ k ++ ": " ++ sv] := by
    simp [paramLines, hser]
  have hDne : ¬ ((D == "") = true) := by simp [hD]
  have hjoin : joinWith "\n" ["Dataset: " ++ D, "Parameters:", "- " ++ k ++ ": " ++ sv] =
      (("Dataset: " ++ D) ++ "\n") ++ (("Parameters:" ++ "\n") ++ ("- " ++ k ++ ": " ++ sv)) := rfl
  have hJ : (("Dataset: " ++ D) ++ "\n") ++ (("Parameters:" ++ "\n") ++ ("- " ++ k ++ ": " ++ sv)) =
      ("Dataset: " ++ D ++ "\nParameters:\n") ++ ("- " ++ k ++ ": " ++ sv) := by
    have hlit : ("\n" ++ ("Parameters:" ++ "\n") : String) = "\nParameters:\n" := rfl
    rw [String.append_assoc ("Dataset: " ++ D), ← String.append_assoc "\n",
        hlit, ← String.append_assoc]
  have hsv' : ∃ c l, ("- " ++ k ++ ": " ++ sv).data = l ++ [c] ∧ isPyWS c = false :=
    ⟨c0, ("- " ++ k ++ ": ").data ++ l0,
     by rw [String.data_append, hl, ← List.append_assoc], hws⟩
  unfold analyzeSynthQuery
  rw [hpl]
  dsimp only
  rw [if_neg hDne]
  simp only [List.isEmpty_cons]
  rw [if_neg (by simp : ¬ (false = true))]
  simp only [List.cons_append, List.nil_append]
  rw [hjoin, hJ, pyStrip_ds D "\nParameters:\n" ("- " ++ k ++ ": " ++ sv) hsv']

/-- Counterexample to claim C2 as stated: with the parameter value `"x\n"`
(whose default string form ends in a newline), the synthesized query is
stripped, so the request query is `"Dataset: D\nParameters:\n- k: x"` and
does not contain `"- k: " ++ str(value) = "- k: x\n"` as a substring. -/
theorem claim_C2_counterexample :
    ∃ td, (analyze_data okCollab true true true (some "D")
        [("k", PyVal.str "x\n")]).calls = [td] ∧
      alGet td "query" = some (.str "Dataset: D\nParameters:\n- k: x") ∧
      ¬ ∃ a b : String,
        "Dataset: D\nParameters:\n- k: x" = a ++ ("- k: " ++ "x\n") ++ b := by
  refine ⟨[("name", .job .ANALYSIS), ("query", .str "Dataset: D\nParameters:\n- k: x")],
    ?_, rfl, ?_⟩
  · rw [analyze_data_calls]
    rfl
  · intro hsub
    exact absurd (hasSub_of_substr hsub) (by decide)

/-- Claim C2, amended: for a non-empty dataset `D` and a single ordinary
parameter `k` (not the special `query` / `task_overrides` keywords) whose
serialized form `sv` ends in a non-whitespace character, the synthesized
query is exactly `"Dataset: D\nParameters:\n- k: sv"` — in particular it
contains `"Dataset: D"` and then `"- k: sv"`, in that order.  (The final
`strip()` removes trailing whitespace of the last serialized value, which
is what the counterexample exhibits; dict/list values are serialized by
`formatValue` as indent-2 key-sorted JSON and other values via `str`.) -/
theorem claim_C2 {ρ : Type} (collab : TaskData → Except PyErr ρ) (v s t : Bool)
    (D k sv : String) (val : PyVal)
    (hD : D ≠ "") (hkq : k ≠ "query") (hko : k ≠ "task_overrides")
    (hser : formatValue val = .ok sv)
    (hsv : ∃ c l, sv.data = l ++ [c] ∧ isPyWS c = false) :
    ∃ td Q, (analyze_data collab v s t (some D) [(k, val)]).calls = [td] ∧
      alGet td "query" = some (.str Q) ∧
      Q = "Dataset: " ++ D ++ "\nParameters:\n" ++ ("- " ++ k ++ ": " ++ sv) ∧
      (∃ x, Q = ("Dataset: " ++ D) ++ x) ∧
      (∃ y, Q = y ++ ("- " ++ k ++ ": " ++ sv)) := by
  have hbeD : (D == "") = false := by simp [hD]
  have hsynth := analyzeSynthQuery_single D k val sv hbeD hser hsv
  have hQne : ("Dataset: " ++ D ++ "\nParameters:\n" ++ ("- " ++ k ++ ": " ++ sv)) ≠ "" :=
    str_ne_empty (data_ne_nil_left _ (data_ne_nil_left _ (data_ne_nil_left _ (by decide))))
  have hQbe : (("Dataset: " ++ D ++ "\nParameters:\n" ++ ("- " ++ k ++ ": " ++ sv)) == "") = false := by
    simp [hQne]
  have hqe : analyzeQueryE (some D) [(k, val)] =
      .ok (.str ("Dataset: " ++ D ++ "\nParameters:\n" ++ ("- " ++ k ++ ": " ++ sv))) := by
    simp [analyzeQueryE, alGet, alRemove, hkq, hko, pyTruthy, hsynth]
  have hreq : analyzeRequest (some D) [(k, val)] =
      .ok [("name", .job .ANALYSIS),
           ("query", .str ("Dataset: " ++ D ++ "\nParameters:\n" ++ ("- " ++ k ++ ": " ++ sv)))] := by
    simp [analyzeRequest, hqe, alRemove, alGet, hkq, hko, normOverrides,
          applyOverrides, pyTruthy, hQbe]
  refine ⟨[("name", .job .ANALYSIS),
           ("query", .str ("Dataset: " ++ D ++ "\nParameters:\n" ++ ("- " ++ k ++ ": " ++ sv)))],
    "Dataset: " ++ D ++ "\nParameters:\n" ++ ("- " ++ k ++ ": " ++ sv),
    ?_, by simp [alGet], rfl,
    ⟨"\nParameters:\n" ++ ("- " ++ k ++ ": " ++ sv), by rw [String.append_assoc]⟩,
    ⟨"Dataset: " ++ D ++ "\nParameters:\n", rfl⟩⟩
  rw [analyze_data_calls, hreq]
  simp [alGetD, alGet, queryPreview_str]

/-- Witness for the amended claim C2 at concrete inputs. -/
theorem claim_C2_witness :
    ("D" : String) ≠ "" ∧ ("k" : String) ≠ "query" ∧ ("k" : String) ≠ "task_overrides" ∧
    formatValue (PyVal.str "v") = .ok "v" ∧
    (∃ c l, ("v" : String).data = l ++ [c] ∧ isPyWS c = false) ∧
    (∃ td Q, (analyze_data okCollab true true true (some "D") [("k", PyVal.str "v")]).calls = [td] ∧
      alGet td "query" = some (.str Q) ∧
      Q = "Dataset: " ++ "D" ++ "\nParameters:\n" ++ ("- " ++ "k" ++ ": " ++ "v") ∧
      (∃ x, Q = ("Dataset: " ++ "D") ++ x) ∧
      (∃ y, Q = y ++ ("- " ++ "k" ++ ": " ++ "v"))) :=
  ⟨by decide, by decide, by decide, rfl, ⟨'v', [], by decide, by decide⟩,
   claim_C2 okCollab true true true "D" "k" "v" (PyVal.str "v")
     (by decide) (by decide) (by decide) rfl ⟨'v', [], by decide, by decide⟩⟩

/-- Counterexample to claim C3 as stated: `analyze_data(dataset="D",
query="")` supplies an explicit `query` keyword argument, but the request
sent carries the synthesized query `"Dataset: D"`, not the supplied empty
string — the supplied query is not used verbatim. -/
theorem claim_C3_counterexample :
    ∃ td, (analyze_data okCollab true true true (some "D")
        [("query", PyVal.str "")]).calls = [td] ∧
      alGet td "query" = some (.str "Dataset: D") ∧
      ¬ alGet td "query" = some (.str "") := by
  refine ⟨[("name", .job .ANALYSIS), ("query", .str "Dataset: D")], ?_, rfl, by simp [alGet]⟩
  rw [analyze_data_calls]
  rfl

/-- Claim C3, amended: for every call that supplies a non-empty (truthy)
explicit `query`, that query is used verbatim as the request's query field
(dataset and other parameters are ignored for query construction), and
supplying `task_overrides=\x7b"metadata": M\x7d` makes the final request
contain the key `metadata` with value `M`. -/
theorem claim_C3 {ρ : Type} (collab : TaskData → Except PyErr ρ) (v s t : Bool)
    (ds : Option String) (q : String) (rest : List (String × PyVal)) (M : PyVal)
    (hq : q ≠ "") (h1 : alGet rest "query" = Option.none)
    (h2 : alGet rest "task_overrides" = Option.none) :
    (∃ td, (analyze_data collab v s t ds (("query", PyVal.str q) :: rest)).calls = [td] ∧
      alGet td "query" = some (.str q) ∧
      alGet td "name" = some (.job .ANALYSIS) ∧
      (analyze_data collab v s t ds (("query", PyVal.str q) :: rest)).result = collab td) ∧
    (∃ td2, (analyze_data collab v s t ds
        [("query", PyVal.str q), ("task_overrides", PyVal.dict [("metadata", M)])]).calls = [td2] ∧
      alGet td2 "metadata" = some M ∧
      alGet td2 "query" = some (.str q) ∧
      alGet td2 "name" = some (.job .ANALYSIS)) := by
  have hbe : (q == "") = false := by simp [hq]
  constructor
  · have hqe := analyzeQueryE_custom ds q rest hq
    have hrem : alRemove (("query", PyVal.str q) :: rest) "query" = rest := by
      simp [alRemove, alRemove_absent rest "query" h1]
    have hreq : analyzeRequest ds (("query", PyVal.str q) :: rest) =
        .ok [("name", .job .ANALYSIS), ("query", .str q)] := by
      simp [analyzeRequest, hqe, pyTruthy, hbe, hrem, h2, normOverrides, applyOverrides]
    refine ⟨[("name", .job .ANALYSIS), ("query", .str q)], ?_, ?_, ?_, ?_⟩
    · rw [analyze_data_calls, hreq]
      simp [alGetD, alGet, queryPreview_str]
    · simp [alGet]
    · simp [alGet]
    · rw [analyze_data_result, hreq]
      simp [alGetD, alGet, queryPreview_str]
  · have hqe2 : analyzeQueryE ds
        [("query", PyVal.str q), ("task_overrides", PyVal.dict [("metadata", M)])] =
          .ok (.str q) := analyzeQueryE_custom ds q _ hq
    have hreq2 : analyzeRequest ds
        [("query", PyVal.str q), ("task_overrides", PyVal.dict [("metadata", M)])] =
          .ok [("name", .job .ANALYSIS), ("query", .str q), ("metadata", M)] := by
      simp [analyzeRequest, hqe2, pyTruthy, hbe, alRemove, alGet, normOverrides,
            applyOverrides, dictUpdateVal, dictUpdate, alSet]
    refine ⟨[("name", .job .ANALYSIS), ("query", .str q), ("metadata", M)], ?_, ?_, ?_, ?_⟩
    · rw [analyze_data_calls, hreq2]
      simp [alGetD, alGet, queryPreview_str]
    · simp [alGet]
    · simp [alGet]
    · simp [alGet]

/-- Witness for the amended claim C3 at concrete inputs. -/
theorem claim_C3_witness :
    ("custom" : String) ≠ "" ∧
    alGet [("k", PyVal.str "v")] "query" = Option.none ∧
    alGet [("k", PyVal.str "v")] "task_overrides" = Option.none ∧
    ((∃ td, (analyze_data okCollab true true true (some "D")
        (("query", PyVal.str "custom") :: [("k", PyVal.str "v")])).calls = [td] ∧
      alGet td "query" = some (.str "custom") ∧
      alGet td "name" = some (.job .ANALYSIS) ∧
      (analyze_data okCollab true true true (some "D")
        (("query", PyVal.str "custom") :: [("k", PyVal.str "v")])).result = okCollab td) ∧
    (∃ td2, (analyze_data okCollab true true true (some "D")
        [("query", PyVal.str "custom"), ("task_overrides", PyVal.dict [("metadata", PyVal.str "m")])]).calls = [td2] ∧
      alGet td2 "metadata" = some (PyVal.str "m") ∧
      alGet td2 "query" = some (.str "custom") ∧
      alGet td2 "name" = some (.job .ANALYSIS))) :=
  ⟨by decide, rfl, rfl,
   claim_C3 okCollab true true true (some "D") "custom" [("k", PyVal.str "v")]
     (PyVal.str "m") (by decide) rfl rfl⟩

/-- Claim C4: `chemistry_task(q, **params)` (with no `task_overrides`
argument) builds a request with `name=MOLECULES` whose query starts with
the trimmed `q`; when extra parameters are supplied, a `"Parameters:"`
block with one `"- key: value"` line per parameter is appended, separated
from the query by a blank line; with params `target="x"` the query
contains `"- target: x"`; the request is then passed to the collaborator
and its result returned. -/
theorem claim_C4 {ρ : Type} (collab : TaskData → Except PyErr ρ) (v s t : Bool)
    (q : String) (kwargs : List (String × PyVal)) (pls : List String)
    (hno : alGet kwargs "task_overrides" = Option.none)
    (hser : paramLines kwargs = .ok pls) :
    (∃ td Q, (chemistry_task collab v s t q kwargs).calls = [td] ∧
      alGet td "name" = some (.job .MOLECULES) ∧
      alGet td "query" = some (.str Q) ∧
      (∃ x, Q = pyStrip q ++ x) ∧
      (kwargs = [] → Q = pyStrip q) ∧
      (kwargs ≠ [] → Q = pyStrip q ++ "\n\n" ++ joinWith "\n" ("Parameters:" :: pls)) ∧
      (chemistry_task collab v s t q kwargs).result = collab td) ∧
    (∃ td2 Q2, (chemistry_task collab v s t "q" [("target", PyVal.str "x")]).calls = [td2] ∧
      alGet td2 "query" = some (.str Q2) ∧
      ∃ y z, Q2 = y ++ ("- target: " ++ "x") ++ z) := by
  constructor
  · cases kwargs with
    | nil =>
      have hreq : chemistryRequest q [] =
          .ok [("name", .job .MOLECULES), ("query", .str (pyStrip q))] := by
        simp [chemistryRequest, chemistryPromptE, alRemove, alGet,
              normOverrides, applyOverrides, pyTruthy]
      refine ⟨[("name", .job .MOLECULES), ("query", .str (pyStrip q))], pyStrip q,
        ?_, by simp [alGet], by simp [alGet],
        ⟨"", by simp⟩, fun _ => rfl, fun h => absurd rfl h, ?_⟩
      · rw [chemistry_task_calls, hreq]
        simp [alGetD, alGet, queryPreview_str]
      · rw [chemistry_task_result, hreq]
        simp [alGetD, alGet, queryPreview_str]
    | cons p ps =>
      have hrem : alRemove (p :: ps) "task_overrides" = p :: ps :=
        alRemove_absent _ "task_overrides" hno
      have hpe : chemistryPromptE q (p :: ps) =
          .ok (pyStrip q ++ "\n\n" ++ joinWith "\n" ("Parameters:" :: pls)) := by
        simp [chemistryPromptE, hrem, hser]
      have hreq : chemistryRequest q (p :: ps) =
          .ok [("name", .job .MOLECULES),
               ("query", .str (pyStrip q ++ "\n\n" ++ joinWith "\n" ("Parameters:" :: pls)))] := by
        simp [chemistryRequest, hpe, hno, normOverrides, applyOverrides, pyTruthy]
      refine ⟨[("name", .job .MOLECULES),
               ("query", .str (pyStrip q ++ "\n\n" ++ joinWith "\n" ("Parameters:" :: pls)))],
        pyStrip q ++ "\n\n" ++ joinWith "\n" ("Parameters:" :: pls),
        ?_, by simp [alGet], by simp [alGet],
        ⟨"\n\n" ++ joinWith "\n" ("Parameters:" :: pls), by rw [String.append_assoc]⟩,
        fun h => absurd h (by simp), fun _ => rfl, ?_⟩
      · rw [chemistry_task_calls, hreq]
        simp [alGetD, alGet, queryPreview_str]
      · rw [chemistry_task_result, hreq]
        simp [alGetD, alGet, queryPreview_str]
  · refine ⟨[("name", .job .MOLECULES), ("query", .str "q\n\nParameters:\n- target: x")],
      "q\n\nParameters:\n- target: x", ?_, rfl,
      ⟨"q\n\nParameters:\n", "", by decide⟩⟩
    rw [chemistry_task_calls]
    rfl

/-- Witness for claim C4 at concrete inputs. -/
theorem claim_C4_witness :
    alGet [("target", PyVal.str "x")] "task_overrides" = Option.none ∧
    paramLines [("target", PyVal.str "x")] = .ok ["- target: x"] ∧
    ((∃ td Q, (chemistry_task okCollab true true true "q"
        [("target", PyVal.str "x")]).calls = [td] ∧
      alGet td "name" = some (.job .MOLECULES) ∧
      alGet td "query" = some (.str Q) ∧
      (∃ x, Q = pyStrip "q" ++ x) ∧
      ([("target", PyVal.str "x")] = ([] : List (String × PyVal)) → Q = pyStrip "q") ∧
      ([("target", PyVal.str "x")] ≠ ([] : List (String × PyVal)) →
        Q = pyStrip "q" ++ "\n\n" ++ joinWith "\n" ("Parameters:" :: ["- target: x"])) ∧
      (chemistry_task okCollab true true true "q" [("target", PyVal.str "x")]).result =
        okCollab td) ∧
    (∃ td2 Q2, (chemistry_task okCollab true true true "q"
        [("target", PyVal.str "x")]).calls = [td2] ∧
      alGet td2 "query" = some (.str Q2) ∧
      ∃ y z, Q2 = y ++ ("- target: " ++ "x") ++ z)) :=
  ⟨rfl, rfl,
   claim_C4 okCollab true true true "q" [("target", PyVal.str "x")] ["- target: x"] rfl rfl⟩

end EdisonPlatform
